import Mathlib

/-!
Shallow embedding of `src/eval.py`, the DeepForest RetinaNet evaluation script.

The script is a linear pipeline: parse command-line arguments, optionally pin a GPU
via an environment variable, configure the backend session, create an evaluation
generator over the test split, load the model, run the external `evaluate` routine,
aggregate per-class average precision into a mean, run a site-gated mean-IoU
comparison, compute a plot-level recall, and log tree counts.

Pure functions of the script (`parse_args`, `create_generator`, the mAP aggregation
loop of `main`) are embedded as Lean functions.  The observable behaviour of `main`
(environment mutation, directory creation, printing, metric/parameter logging, the
calls into external routines, and the Python exception that aborts the run, if any)
is embedded as a function returning the list of emitted events together with an
optional error.  External library calls (`preprocess.split_training`, `evaluate`,
`Jaccard`, `neonRecall`, `os.path.exists`, `generator.label_to_name`) are oracles
supplied through a `World` record.  Python floats are modelled as rationals;
Python ints as `Int`/`Nat`.
-/

namespace DeepForestEval

/-- The fields of the `DeepForest_config` mapping that `eval.py` reads. -/
structure DFConfig where
  single_tile : Bool
  rgb_tile_dir : String
  evaluation_tile_dir : String
  deriving DecidableEq, Repr

/-- One hand-annotated record: image path, bounding box, class label (spec data model). -/
structure Ann where
  image_path : String
  xmin : ℚ
  ymin : ℚ
  xmax : ℚ
  ymax : ℚ
  label : String
  deriving DecidableEq, Repr

/-- The namespace of parsed command-line arguments produced by `parse_args`
(`src/eval.py` lines 71-96). -/
structure Args where
  batch_size : Int
  dataset_type : String
  annotations : String
  model : String
  convert_model : Bool
  backbone : String
  gpu : Option String
  score_threshold : ℚ
  iou_threshold : ℚ
  max_detections : Int
  suppression_threshold : ℚ
  save_path : Option String
  image_min_side : Int
  image_max_side : Int
  deriving DecidableEq, Repr

/-- The usage-error conditions with which argparse aborts (non-zero exit). -/
inductive ParseError where
  | missingRequired
  | invalidChoice
  | unrecognizedArguments
  | missingOptionValue
  | invalidOptionValue
  deriving DecidableEq, Repr

/-- Python exceptions that `main` can raise. -/
inductive PyError where
  | typeError
  | zeroDivisionError
  deriving DecidableEq, Repr

/-- A value logged as an experiment parameter (strings or the tree-count list). -/
inductive PValue where
  | str (s : String)
  | natList (l : List Nat)
  deriving DecidableEq, Repr

/-- Observable events emitted by `main`, in program order: environment mutation,
session setup, logging calls, filesystem writes, prints, and invocations of the
external evaluation routines. -/
inductive Event where
  | setEnv (name : String) (value : String)
  | setSession
  | logParameter (name : String) (value : PValue)
  | makedirs (path : String)
  | printLoading
  | loadModel (path : String)
  | printSummary
  | evaluateCall (save_path : String)
  | printInstances (numAnnotations : Nat) (className : String) (ap : ℚ)
  | printMAP (v : ℚ)
  | logMetric (name : String) (v : ℚ)
  | jaccardInvoked
  | printMeanIoU (v : ℚ)
  | neonRecallInvoked (site : String)
  | printRecall (v : ℚ)
  deriving DecidableEq, Repr

/-- True exactly on `setEnv` events. -/
def Event.isSetEnv : Event → Bool
  | .setEnv _ _ => true
  | _ => false

/-- True exactly on `logMetric` events carrying the given metric name. -/
def Event.isMetricNamed (n : String) : Event → Bool
  | .logMetric m _ => m == n
  | _ => false

/-- The list of directories created (`os.makedirs`) during a trace. -/
def createdDirs (tr : List Event) : List String :=
  tr.filterMap (fun e => match e with | .makedirs p => some p | _ => none)

/-- The list of save paths passed to the external `evaluate` call during a trace. -/
def evalCalls (tr : List Event) : List String :=
  tr.filterMap (fun e => match e with | .evaluateCall p => some p | _ => none)

/-- Oracle for the external library calls `main` delegates to:
`os.path.exists`, `preprocess.split_training` (its test-split component),
the result mapping of `keras_retinanet.utils.eval.evaluate` (an ordered
association from class label to (average precision, instance count)),
`generator.label_to_name`, and the scalars returned by `Jaccard` and
`neonRecall`. -/
structure World where
  path_exists : String → Bool
  split_training : String → DFConfig → Bool → List Ann
  evaluate_result : List (Nat × ℚ × Nat)
  label_to_name : Nat → String
  jaccard : ℚ
  neon_recall : ℚ

/-- The `OnTheFlyGenerator` object as constructed by `create_generator`
(`src/eval.py` lines 59-66): the constructor-argument state it is given. -/
structure Generator where
  annotations : String
  windowdf : List Ann
  batch_size : Int
  base_dir : String
  DeepForest_config : DFConfig
  group_method : String
  shuffle_groups : Bool
  deriving Repr

/-- Embedding of `create_generator(args, config)` (`src/eval.py` lines 51-68).
The Python function reads the module-level globals `DeepForest_config` and
`preprocess`; those globals are the explicit leading parameters here, and the
second Python parameter `config` is the trailing parameter, unused exactly as in
the source.  `split_training` returns the test split (the second component of the
Python pair). -/
def create_generator (split_training : String → DFConfig → Bool → List Ann)
    (DeepForest_config : DFConfig) (args : Args) (config : DFConfig) : Generator :=
  let test := split_training args.annotations DeepForest_config DeepForest_config.single_tile
  { annotations := args.annotations
    windowdf := test
    batch_size := args.batch_size
    base_dir := DeepForest_config.rgb_tile_dir
    DeepForest_config := DeepForest_config
    group_method := "none"
    shuffle_groups := false }

/-- Split a list into consecutive chunks of size `n` (the final chunk may be
shorter); with `n = 0` the whole list is one chunk. -/
def chunkList (n : Nat) (l : List Ann) : List (List Ann) :=
  if h : l = [] then []
  else if hn : n = 0 then [l]
  else l.take n :: chunkList n (l.drop n)
termination_by l.length
decreasing_by
  simp only [List.length_drop]
  have hl : 0 < l.length := List.length_pos.mpr h
  omega

/-- Modelled from the spec: the batch enumeration of the external
`OnTheFlyGenerator` (`DeepForest.onthefly_generator`, not part of `src/`).  Per
the spec, the generator is "an iterable, restartable, finite sequence of
(image batch, annotation batch) pairs" and with `shuffle_groups=False` it runs in
"deterministic, sequential order"; with shuffling enabled the order depends on
the run's random state, modelled here by a `seed` parameter. -/
def enumerateBatches (g : Generator) (seed : Nat) : List (List Ann) :=
  let batches := chunkList g.batch_size.toNat g.windowdf
  if g.shuffle_groups then batches.rotate seed else batches

/-- Insert one record at the end of its image's group, keeping first-seen image
order. -/
def addToGroup (acc : List (String × List Ann)) (a : Ann) : List (String × List Ann) :=
  match acc with
  | [] => [(a.image_path, [a])]
  | (k, v) :: rest =>
    if k = a.image_path then (k, v ++ [a]) :: rest else (k, v) :: addToGroup rest a

/-- Group records by image path, in first-seen order. -/
def groupByImage (l : List Ann) : List (String × List Ann) :=
  l.foldl addToGroup []

/-- Modelled from the spec: `generator.annotation_dict`, owned by the external
`OnTheFlyGenerator` (not part of `src/`).  Per the spec the generator "owns a
mapping from image identifier to its list of annotations (used purely for
counting)"; it is modelled as the grouping of the generator's window data by
image. -/
def annotation_dict (g : Generator) : List (String × List Ann) :=
  groupByImage g.windowdf

/-- The optional flags of the parser that take a value (`src/eval.py` lines
75-94, all except the `store_true` flag `--convert-model`). -/
def valueOpts : List String :=
  ["--batch-size", "--backbone", "--gpu", "--score-threshold", "--iou-threshold",
   "--max-detections", "--suppression-threshold", "--save-path",
   "--image-min-side", "--image-max-side"]

/-- Prefix test on strings by their character lists (kernel-evaluable). -/
def strPre (p s : String) : Bool :=
  p.data.isPrefixOf s.data

/-- Parse a non-empty all-digit character list as a natural number. -/
def parseDigits (cs : List Char) : Option Nat :=
  if cs.isEmpty then none
  else cs.foldl
    (fun acc c => acc.bind (fun n => if c.isDigit then some (10 * n + (c.toNat - 48)) else none))
    (some 0)

/-- Modelled from the spec: Python `int(...)` conversion used by argparse for
`type=int` flags (decimal integer forms). -/
def strToInt (s : String) : Option Int :=
  if strPre "-" s then (parseDigits (s.drop 1).data).map (fun n => -(n : Int))
  else (parseDigits s.data).map (fun n => (n : Int))

/-- Modelled from the spec: Python `float(...)` conversion used by argparse for
`type=float` flags, restricted to plain decimal forms `[-]digits[.digits]`. -/
def strToRat (s : String) : Option ℚ :=
  let sgn : ℚ := if strPre "-" s then -1 else 1
  let body := if strPre "-" s then s.drop 1 else s
  match (body.data.splitOnP (fun c => c == '.')).map String.mk with
  | [i] => (parseDigits i.data).map (fun n => sgn * n)
  | [i, f] =>
    if i.data.isEmpty && f.data.isEmpty then none
    else
      match (if i.data.isEmpty then some 0 else parseDigits i.data),
            (if f.data.isEmpty then some 0 else parseDigits f.data) with
      | some ip, some fp => some (sgn * ((ip : ℚ) + (fp : ℚ) / (10 ^ f.length)))
      | _, _ => none
  | _ => none

/-- Apply one parsed optional argument to the namespace, with the type
conversion argparse performs (`src/eval.py` lines 75-94). -/
def applyOpt (a : Args) (name value : String) : Except ParseError Args :=
  if name = "--batch-size" then
    match strToInt value with
    | some n => .ok { a with batch_size := n }
    | none => .error .invalidOptionValue
  else if name = "--convert-model" then .ok { a with convert_model := true }
  else if name = "--backbone" then .ok { a with backbone := value }
  else if name = "--gpu" then .ok { a with gpu := some value }
  else if name = "--score-threshold" then
    match strToRat value with
    | some q => .ok { a with score_threshold := q }
    | none => .error .invalidOptionValue
  else if name = "--iou-threshold" then
    match strToRat value with
    | some q => .ok { a with iou_threshold := q }
    | none => .error .invalidOptionValue
  else if name = "--max-detections" then
    match strToInt value with
    | some n => .ok { a with max_detections := n }
    | none => .error .invalidOptionValue
  else if name = "--suppression-threshold" then
    match strToRat value with
    | some q => .ok { a with suppression_threshold := q }
    | none => .error .invalidOptionValue
  else if name = "--save-path" then .ok { a with save_path := some value }
  else if name = "--image-min-side" then
    match strToInt value with
    | some n => .ok { a with image_min_side := n }
    | none => .error .invalidOptionValue
  else if name = "--image-max-side" then
    match strToInt value with
    | some n => .ok { a with image_max_side := n }
    | none => .error .invalidOptionValue
  else .error .unrecognizedArguments

/-- Modelled from the spec: the token scan of argparse for this parser.  A token
starting with the prefix character is an optional argument (the `store_true`
flag consumes no value, the flags of `valueOpts` consume the following token,
anything else is unrecognized); every other token is a positional argument,
collected in order. -/
def scanArgs : List String → Except ParseError (List (String × String) × List String)
  | [] => Except.ok ([], [])
  | t :: rest =>
    if strPre "-" t then
      if t = "--convert-model" then
        (scanArgs rest).map (fun r => ((t, "") :: r.1, r.2))
      else if valueOpts.contains t then
        match rest with
        | [] => Except.error ParseError.missingOptionValue
        | v :: rest2 => (scanArgs rest2).map (fun r => ((t, v) :: r.1, r.2))
      else Except.error ParseError.unrecognizedArguments
    else
      (scanArgs rest).map (fun r => (r.1, t :: r.2))

/-- Modelled from the spec: how argparse distributes the positional tokens over
the required sub-command (whose sub-parser consumes the leading positionals) and
the required `model` positional of the main parser.  No positionals at all
report the missing required arguments; a sub-command token other than
`onthefly` is an invalid choice; fewer than three positionals leave a required
positional (`annotations` or `model`) unfilled; more than three leave the
sub-parser with unrecognized extras. -/
def matchPositionals : List String → Except ParseError (String × String × String)
  | [] => Except.error ParseError.missingRequired
  | [p] =>
    if p = "onthefly" then Except.error ParseError.missingRequired
    else Except.error ParseError.invalidChoice
  | [p, _] =>
    if p = "onthefly" then Except.error ParseError.missingRequired
    else Except.error ParseError.invalidChoice
  | [p, a, m] =>
    if p = "onthefly" then Except.ok (p, a, m)
    else Except.error ParseError.invalidChoice
  | p :: _ =>
    if p = "onthefly" then Except.error ParseError.unrecognizedArguments
    else Except.error ParseError.invalidChoice

/-- The parser namespace before any optional argument is applied: the defaults
declared in `src/eval.py` lines 75-94, with the matched positionals filled in. -/
def defaultArgsFor (dt ann mdl : String) : Args :=
  { batch_size := 1
    dataset_type := dt
    annotations := ann
    model := mdl
    convert_model := false
    backbone := "resnet50"
    gpu := none
    score_threshold := 1/20
    iou_threshold := 1/2
    max_detections := 100
    suppression_threshold := 1/5
    save_path := none
    image_min_side := 800
    image_max_side := 1333 }

/-- Embedding of `parse_args` (`src/eval.py` lines 71-96) over a token list:
scan tokens, match the positionals, then apply the optional arguments in
order of appearance. -/
def parse_args (tokens : List String) : Except ParseError Args := do
  let (opts, positionals) ← scanArgs tokens
  let (dt, ann, mdl) ← matchPositionals positionals
  opts.foldlM (fun a nv => applyOpt a nv.1 nv.2) (defaultArgsFor dt ann mdl)

/-- The environment-variable events of `src/eval.py` lines 109-110: Python
`if args.gpu:` is a truthiness test, so `None` and the empty string both skip
the assignment. -/
def gpuEvs (gpu : Option String) : List Event :=
  match gpu with
  | some s => if s ≠ "" then [Event.setEnv "CUDA_VISIBLE_DEVICES" s] else []
  | none => []

/-- The directory-creation events of `src/eval.py` lines 119-120: when a save
path was given and `save_path + dirname` (string concatenation) does not exist,
it is created. -/
def mkDirEvs (w : World) (sp : Option String) (dirname : String) : List Event :=
  match sp with
  | some p => if w.path_exists (p ++ dirname) then [] else [Event.makedirs (p ++ dirname)]
  | none => []

/-- The per-class reporting loop of `src/eval.py` lines 141-148: one print per
class, and accumulation of the average-precision sum and the count of classes
with at least one annotated instance.  The accumulator carries (events so far,
`precision`, `present_classes`). -/
def reportLoop (f : Nat → String) (acc : List Event × ℚ × Nat) :
    List (Nat × ℚ × Nat) → List Event × ℚ × Nat
  | [] => acc
  | x :: rest =>
    reportLoop f
      (acc.1 ++ [Event.printInstances x.2.2 (f x.1) x.2.1],
       if 0 < x.2.2 then acc.2.1 + x.2.1 else acc.2.1,
       if 0 < x.2.2 then acc.2.2 + 1 else acc.2.2) rest

/-- The number of classes of a result mapping with at least one annotated
instance (the divisor of the mAP computation). -/
def presentClasses (l : List (Nat × ℚ × Nat)) : Nat :=
  (l.filter (fun x => decide (0 < x.2.2))).length

/-- The unweighted sum of average precision over the classes with at least one
annotated instance (the numerator of the mAP computation). -/
def precisionSum (l : List (Nat × ℚ × Nat)) : ℚ :=
  ((l.filter (fun x => decide (0 < x.2.2))).map (fun x => x.2.1)).sum

/-- The mean average precision `precision / present_classes` of
`src/eval.py` lines 149-150. -/
def mapValue (l : List (Nat × ℚ × Nat)) : ℚ :=
  precisionSum l / (presentClasses l : ℚ)

/-- The per-class print events of the reporting loop. -/
def classEvs (f : Nat → String) (l : List (Nat × ℚ × Nat)) : List Event :=
  l.map (fun x => Event.printInstances x.2.2 (f x.1) x.2.1)

/-- The tree counts logged at `src/eval.py` lines 184-185: the length of each
image's annotation list in the generator's annotation mapping. -/
def ntreesOf (cfg : DFConfig) (w : World) (args : Args) : List Nat :=
  (annotation_dict (create_generator w.split_training cfg args cfg)).map
    (fun x => x.2.length)

/-- Embedding of `main` (`src/eval.py` lines 99-185), from the point where the
arguments are already parsed: returns the trace of observable events together
with the Python exception aborting the run (`none` means exit code zero).
`site` is the module-level global the function reads; `dirname` is the
timestamp string.  Two failure points of the source are modelled: the
`TypeError` of `args.save_path + dirname` at line 137 when no save path was
given, and the `ZeroDivisionError` of `precision / present_classes` at line 149
when no class has annotations (it aborts before the mAP print and before the
mAP metric is logged). -/
def main (cfg : DFConfig) (w : World) (site : String) (dirname : String) (args : Args) :
    List Event × Option PyError :=
  let ev1 := gpuEvs args.gpu ++
    [Event.setSession, Event.logParameter "Start Time" (PValue.str dirname)]
  let ev2 := ev1 ++ mkDirEvs w args.save_path dirname
  let ev3 := ev2 ++ [Event.printLoading, Event.loadModel args.model, Event.printSummary]
  match args.save_path with
  | none => (ev3, some PyError.typeError)
  | some p =>
    let sp := p ++ dirname
    let ev4 := ev3 ++ [Event.evaluateCall sp]
    let res := reportLoop w.label_to_name ([], 0, 0) w.evaluate_result
    let ev5 := ev4 ++ res.1
    if res.2.2 = 0 then (ev5, some PyError.zeroDivisionError)
    else
      let mAP := res.2.1 / (res.2.2 : ℚ)
      let ev6 := ev5 ++ [Event.printMAP mAP, Event.logMetric "mAP" mAP]
      let ev7 :=
        if site = "OSBS" then
          ev6 ++ [Event.jaccardInvoked, Event.printMeanIoU w.jaccard,
                  Event.logMetric "Mean IoU" w.jaccard]
        else ev6
      let gen := create_generator w.split_training cfg args cfg
      let ev8 := ev7 ++ [Event.neonRecallInvoked site, Event.logMetric "Recall" w.neon_recall,
                         Event.printRecall w.neon_recall]
      let ntrees := (annotation_dict gen).map (fun x => x.2.length)
      (ev8 ++ [Event.logParameter "Number of Trees" (PValue.natList ntrees)], none)

/-- A fixed configuration used for concrete runs. -/
def cfg0 : DFConfig :=
  { single_tile := false, rgb_tile_dir := "rgb", evaluation_tile_dir := "tiles/OSBS" }

/-- A fixed annotated record used for concrete runs. -/
def ann0 : Ann :=
  { image_path := "img1.tif", xmin := 0, ymin := 0, xmax := 1, ymax := 1, label := "Tree" }

/-- A fixed external-world oracle: the result mapping of the spec's worked
example, classes A, B, C with average precisions 0.8, 0.0, 0.4 and instance
counts 10, 0, 5. -/
def w0 : World :=
  { path_exists := fun _ => false
    split_training := fun _ _ _ => [ann0, ann0, ann0]
    evaluate_result := [(0, 4/5, 10), (1, 0, 0), (2, 2/5, 5)]
    label_to_name := fun _ => "Tree"
    jaccard := 1/2
    neon_recall := 3/4 }

/-- A world whose result mapping gives every class zero instances. -/
def w0zero : World :=
  { w0 with evaluate_result := [(0, 0, 0), (1, 1/2, 0)] }

/-- Fixed parsed arguments for concrete runs: the defaults with a save path. -/
def args0 : Args :=
  { defaultArgsFor "onthefly" "a.csv" "m.h5" with save_path := some "out" }

/-- `args0` with a non-empty GPU id. -/
def argsGpu : Args := { args0 with gpu := some "0" }

/-- `args0` with an empty-string GPU id (supplied but falsy in Python). -/
def argsGpuEmpty : Args := { args0 with gpu := some "" }

/-- `args0` with the save path omitted. -/
def argsNoSave : Args := { args0 with save_path := none }

/-- The reporting loop emits one print per class and computes exactly the
filtered sum and the filtered count. -/
theorem reportLoop_spec (f : Nat → String) (l : List (Nat × ℚ × Nat)) :
    ∀ acc : List Event × ℚ × Nat,
      reportLoop f acc l =
        (acc.1 ++ classEvs f l, acc.2.1 + precisionSum l, acc.2.2 + presentClasses l) := by
  induction l with
  | nil =>
    intro acc
    simp [reportLoop, classEvs, precisionSum, presentClasses]
  | cons x rest ih =>
    intro acc
    by_cases h : 0 < x.2.2 <;>
      simp [reportLoop, h, ih, classEvs, precisionSum, presentClasses,
        List.filter_cons] <;>
      constructor <;> first | ring | omega

/-- If every class has zero instances, no class is present. -/
theorem presentClasses_all_zero :
    ∀ {l : List (Nat × ℚ × Nat)}, (∀ x ∈ l, x.2.2 = 0) → presentClasses l = 0 := by
  intro l
  induction l with
  | nil => intro _; simp [presentClasses]
  | cons x rest ih =>
    intro h
    have hx : x.2.2 = 0 := h x (by simp)
    have hr := ih (fun y hy => h y (by simp [hy]))
    simp only [presentClasses, List.filter_cons, hx] at hr ⊢
    simpa using hr

/-- Membership characterization for the GPU environment events. -/
theorem mem_gpuEvs_iff {e : Event} {g : Option String} :
    e ∈ gpuEvs g ↔
      ∃ s, g = some s ∧ ¬s = "" ∧ e = Event.setEnv "CUDA_VISIBLE_DEVICES" s := by
  cases g with
  | none => simp [gpuEvs]
  | some s => by_cases hs : s = "" <;> simp [gpuEvs, hs]

/-- Membership characterization for the directory-creation events. -/
theorem mem_mkDirEvs_iff {e : Event} {w : World} {sp : Option String} {d : String} :
    e ∈ mkDirEvs w sp d ↔
      ∃ q, sp = some q ∧ w.path_exists (q ++ d) = false ∧ e = Event.makedirs (q ++ d) := by
  cases sp with
  | none => simp [mkDirEvs]
  | some q => by_cases hx : w.path_exists (q ++ d) <;> simp [mkDirEvs, hx]

/-- Trace and outcome of `main` when no save path was given: the run aborts
with a `TypeError` at the `args.save_path + dirname` argument of the
`evaluate` call, before the evaluator is invoked. -/
theorem main_none_shape (cfg : DFConfig) (w : World) (site dirname : String)
    (args : Args) (hsp : args.save_path = none) :
    main cfg w site dirname args =
      (gpuEvs args.gpu ++
        [Event.setSession, Event.logParameter "Start Time" (PValue.str dirname),
         Event.printLoading, Event.loadModel args.model, Event.printSummary],
       some PyError.typeError) := by
  simp [main, hsp, mkDirEvs]

/-- Trace and outcome of `main` when a save path was given but no class has an
annotated instance: the run aborts with a `ZeroDivisionError` right after the
per-class prints, before the mAP print and the mAP metric log. -/
theorem main_zero_shape (cfg : DFConfig) (w : World) (site dirname p : String)
    (args : Args) (hsp : args.save_path = some p)
    (hz : presentClasses w.evaluate_result = 0) :
    main cfg w site dirname args =
      (gpuEvs args.gpu ++
        [Event.setSession, Event.logParameter "Start Time" (PValue.str dirname)] ++
        mkDirEvs w (some p) dirname ++
        [Event.printLoading, Event.loadModel args.model, Event.printSummary,
         Event.evaluateCall (p ++ dirname)] ++
        classEvs w.label_to_name w.evaluate_result,
       some PyError.zeroDivisionError) := by
  simp [main, hsp, reportLoop_spec, hz]

/-- Trace and outcome of a completed run of `main`: save path given and at
least one class present. -/
theorem main_ok_shape (cfg : DFConfig) (w : World) (site dirname p : String)
    (args : Args) (hsp : args.save_path = some p)
    (hz : presentClasses w.evaluate_result ≠ 0) :
    main cfg w site dirname args =
      (gpuEvs args.gpu ++
        [Event.setSession, Event.logParameter "Start Time" (PValue.str dirname)] ++
        mkDirEvs w (some p) dirname ++
        [Event.printLoading, Event.loadModel args.model, Event.printSummary,
         Event.evaluateCall (p ++ dirname)] ++
        classEvs w.label_to_name w.evaluate_result ++
        [Event.printMAP (mapValue w.evaluate_result),
         Event.logMetric "mAP" (mapValue w.evaluate_result)] ++
        (if site = "OSBS" then
           [Event.jaccardInvoked, Event.printMeanIoU w.jaccard,
            Event.logMetric "Mean IoU" w.jaccard]
         else []) ++
        [Event.neonRecallInvoked site, Event.logMetric "Recall" w.neon_recall,
         Event.printRecall w.neon_recall,
         Event.logParameter "Number of Trees" (PValue.natList (ntreesOf cfg w args))],
       none) := by
  by_cases hs : site = "OSBS" <;>
    simp [main, hsp, reportLoop_spec, hz, mapValue, ntreesOf, hs]

/-- C1: mean average precision is the unweighted mean of per-class average
precision over exactly the classes whose instance count is positive — the value
computed by the reporting loop is the sum of average precisions of the
positive-count classes divided by their number (zero-count classes excluded
from both sum and divisor), the worked example with classes
`(0.8, 10), (0.0, 0), (0.4, 5)` yields `0.6`, and the value is both printed and
logged as the `mAP` metric. -/
theorem C1_map_mean (cfg : DFConfig) (w : World) (site dirname p : String) (args : Args)
    (hsp : args.save_path = some p) (hpc : presentClasses w.evaluate_result ≠ 0) :
    mapValue w.evaluate_result =
      ((w.evaluate_result.filter (fun x => decide (0 < x.2.2))).map (fun x => x.2.1)).sum /
        ((w.evaluate_result.filter (fun x => decide (0 < x.2.2))).length : ℚ)
    ∧ Event.printMAP (mapValue w.evaluate_result) ∈ (main cfg w site dirname args).1
    ∧ Event.logMetric "mAP" (mapValue w.evaluate_result) ∈ (main cfg w site dirname args).1
    ∧ mapValue [(0, 4/5, 10), (1, 0, 0), (2, 2/5, 5)] = 3/5 := by
  refine ⟨rfl, ?_, ?_, ?_⟩
  · rw [main_ok_shape cfg w site dirname p args hsp hpc]
    simp
  · rw [main_ok_shape cfg w site dirname p args hsp hpc]
    simp
  · norm_num [mapValue, precisionSum, presentClasses]

/-- C1 witness: the theorem at the concrete example world `w0` (classes with
average precisions 0.8, 0.0, 0.4 and counts 10, 0, 5). -/
theorem C1_map_mean_witness :
    Event.printMAP (mapValue w0.evaluate_result) ∈
      (main cfg0 w0 "OSBS" "20190101_000000" args0).1 :=
  (C1_map_mean cfg0 w0 "OSBS" "20190101_000000" "out" args0 rfl (by decide)).2.1

/-- C2: when every class of the result mapping has an instance count of zero,
the run fails with a division-by-zero error; it neither prints a mAP value nor
logs any metric (in particular no `mAP` metric). -/
theorem C2_zero_div (cfg : DFConfig) (w : World) (site dirname p : String) (args : Args)
    (hsp : args.save_path = some p)
    (hz : ∀ x ∈ w.evaluate_result, x.2.2 = 0) :
    (main cfg w site dirname args).2 = some PyError.zeroDivisionError
    ∧ (∀ v, Event.printMAP v ∉ (main cfg w site dirname args).1)
    ∧ (∀ n v, Event.logMetric n v ∉ (main cfg w site dirname args).1) := by
  have h0 := presentClasses_all_zero hz
  refine ⟨?_, ?_, ?_⟩
  · rw [main_zero_shape cfg w site dirname p args hsp h0]
  · intro v
    rw [main_zero_shape cfg w site dirname p args hsp h0]
    simp [mem_gpuEvs_iff, mem_mkDirEvs_iff, classEvs]
  · intro n v
    rw [main_zero_shape cfg w site dirname p args hsp h0]
    simp [mem_gpuEvs_iff, mem_mkDirEvs_iff, classEvs]

/-- C2 witness: the theorem at a concrete world whose classes all have zero
instances. -/
theorem C2_zero_div_witness :
    (main cfg0 w0zero "OSBS" "20190101_000000" args0).2 =
      some PyError.zeroDivisionError :=
  (C2_zero_div cfg0 w0zero "OSBS" "20190101_000000" "out" args0 rfl (by decide)).1

/-- C3: the site-gated mean-IoU comparison executes when and only when the
site name equals the literal `"OSBS"`: for that site the Jaccard routine is
invoked and the `Mean IoU` metric is printed and logged; for every other site
it is skipped entirely and no `Mean IoU` metric (with any value) is printed or
logged. -/
theorem C3_site_gate (cfg : DFConfig) (w : World) (site dirname p : String) (args : Args)
    (hsp : args.save_path = some p) (hpc : presentClasses w.evaluate_result ≠ 0) :
    (site = "OSBS" ↔ Event.jaccardInvoked ∈ (main cfg w site dirname args).1)
    ∧ (site = "OSBS" →
        Event.printMeanIoU w.jaccard ∈ (main cfg w site dirname args).1
        ∧ Event.logMetric "Mean IoU" w.jaccard ∈ (main cfg w site dirname args).1)
    ∧ (site ≠ "OSBS" →
        (∀ v, Event.printMeanIoU v ∉ (main cfg w site dirname args).1)
        ∧ (∀ v, Event.logMetric "Mean IoU" v ∉ (main cfg w site dirname args).1)) := by
  rw [main_ok_shape cfg w site dirname p args hsp hpc]
  by_cases hs : site = "OSBS"
  · refine ⟨?_, ?_, ?_⟩
    · simp [hs]
    · intro _
      constructor <;> simp [hs]
    · intro h
      exact absurd hs h
  · refine ⟨?_, ?_, ?_⟩
    · simp [hs, mem_gpuEvs_iff, mem_mkDirEvs_iff, classEvs]
    · intro h
      exact absurd h hs
    · intro _
      constructor <;> intro v <;>
        simp [hs, mem_gpuEvs_iff, mem_mkDirEvs_iff, classEvs]

/-- C3 witness: at site `"OSBS"` the Jaccard routine is invoked and the metric
logged; the hypotheses are discharged at the concrete run. -/
theorem C3_site_gate_witness :
    Event.jaccardInvoked ∈ (main cfg0 w0 "OSBS" "20190101_000000" args0).1 :=
  ((C3_site_gate cfg0 w0 "OSBS" "20190101_000000" "out" args0 rfl (by decide)).1).mp rfl

/-- C4: every run that reaches the reporting phase, whatever the site,
invokes the recall computation and logs its scalar as the `Recall` metric,
and logs the per-image tree counts (the length of each image's annotation list
in the generator's annotation mapping) as the `Number of Trees` parameter —
and under no site is any `Number of Trees` metric logged. -/
theorem C4_recall_trees (cfg : DFConfig) (w : World) (site dirname p : String) (args : Args)
    (hsp : args.save_path = some p) (hpc : presentClasses w.evaluate_result ≠ 0) :
    Event.neonRecallInvoked site ∈ (main cfg w site dirname args).1
    ∧ Event.logMetric "Recall" w.neon_recall ∈ (main cfg w site dirname args).1
    ∧ Event.printRecall w.neon_recall ∈ (main cfg w site dirname args).1
    ∧ Event.logParameter "Number of Trees" (PValue.natList (ntreesOf cfg w args)) ∈
        (main cfg w site dirname args).1
    ∧ (∀ v, Event.logMetric "Number of Trees" v ∉ (main cfg w site dirname args).1) := by
  rw [main_ok_shape cfg w site dirname p args hsp hpc]
  by_cases hs : site = "OSBS"
  · refine ⟨?_, ?_, ?_, ?_, ?_⟩ <;>
      simp [hs, mem_gpuEvs_iff, mem_mkDirEvs_iff, classEvs]
  · refine ⟨?_, ?_, ?_, ?_, ?_⟩ <;>
      simp [hs, mem_gpuEvs_iff, mem_mkDirEvs_iff, classEvs]

/-- C4 witness: the theorem at a concrete run with a site other than the
gated one. -/
theorem C4_recall_trees_witness :
    Event.logMetric "Recall" w0.neon_recall ∈
      (main cfg0 w0 "TEAK" "20190101_000000" args0).1 :=
  (C4_recall_trees cfg0 w0 "TEAK" "20190101_000000" "out" args0 rfl (by decide)).2.1

/-- Every trace of `main` splits as the GPU environment events followed by a
tail that contains the session setup and the model load and contains no
environment assignment. -/
theorem main_trace_split (cfg : DFConfig) (w : World) (site dirname : String) (args : Args) :
    ∃ rest, (main cfg w site dirname args).1 = gpuEvs args.gpu ++ rest
      ∧ Event.setSession ∈ rest
      ∧ Event.loadModel args.model ∈ rest
      ∧ ∀ v, Event.setEnv "CUDA_VISIBLE_DEVICES" v ∉ rest := by
  rcases hsp : args.save_path with _ | p
  · have h := main_none_shape cfg w site dirname args hsp
    refine ⟨[Event.setSession, Event.logParameter "Start Time" (PValue.str dirname),
        Event.printLoading, Event.loadModel args.model, Event.printSummary],
      by rw [h], by simp, by simp, ?_⟩
    intro v
    simp
  · by_cases hz : presentClasses w.evaluate_result = 0
    · have h := main_zero_shape cfg w site dirname p args hsp hz
      refine ⟨[Event.setSession, Event.logParameter "Start Time" (PValue.str dirname)] ++
          mkDirEvs w (some p) dirname ++
          [Event.printLoading, Event.loadModel args.model, Event.printSummary,
           Event.evaluateCall (p ++ dirname)] ++
          classEvs w.label_to_name w.evaluate_result, ?_, by simp, by simp, ?_⟩
      · rw [h]
        simp [List.append_assoc]
      · intro v
        simp [mem_mkDirEvs_iff, classEvs]
    · have h := main_ok_shape cfg w site dirname p args hsp hz
      refine ⟨[Event.setSession, Event.logParameter "Start Time" (PValue.str dirname)] ++
          mkDirEvs w (some p) dirname ++
          [Event.printLoading, Event.loadModel args.model, Event.printSummary,
           Event.evaluateCall (p ++ dirname)] ++
          classEvs w.label_to_name w.evaluate_result ++
          [Event.printMAP (mapValue w.evaluate_result),
           Event.logMetric "mAP" (mapValue w.evaluate_result)] ++
          (if site = "OSBS" then
             [Event.jaccardInvoked, Event.printMeanIoU w.jaccard,
              Event.logMetric "Mean IoU" w.jaccard]
           else []) ++
          [Event.neonRecallInvoked site, Event.logMetric "Recall" w.neon_recall,
           Event.printRecall w.neon_recall,
           Event.logParameter "Number of Trees"
             (PValue.natList (ntreesOf cfg w args))], ?_, by simp, by simp, ?_⟩
      · rw [h]
        simp [List.append_assoc]
      · intro v
        by_cases hs : site = "OSBS" <;>
          simp [hs, mem_mkDirEvs_iff, classEvs]

/-- C5 (amended): when `--gpu` is unset, or supplied as the empty string
(which Python truthiness treats as unset), `CUDA_VISIBLE_DEVICES` is never
assigned; when a non-empty GPU id is supplied, the very first event of the run
assigns the variable to that id, before the backend session is configured and
before the model is loaded. -/
theorem C5_gpu_env (cfg : DFConfig) (w : World) (site dirname : String) (args : Args) :
    ((args.gpu = none ∨ args.gpu = some "") →
      ∀ v, Event.setEnv "CUDA_VISIBLE_DEVICES" v ∉ (main cfg w site dirname args).1)
    ∧ (∀ s, args.gpu = some s → s ≠ "" →
        ∃ rest, (main cfg w site dirname args).1 =
            Event.setEnv "CUDA_VISIBLE_DEVICES" s :: rest
          ∧ Event.setSession ∈ rest ∧ Event.loadModel args.model ∈ rest) := by
  obtain ⟨rest, htr, hsess, hload, hnone⟩ := main_trace_split cfg w site dirname args
  constructor
  · intro hg v
    rw [htr]
    rcases hg with hg | hg <;> simp [hg, gpuEvs, hnone v]
  · intro s hg hne
    rw [htr, hg]
    exact ⟨rest, by simp [gpuEvs, hne], hsess, hload⟩

/-- C5 counterexample: a run in which a GPU id is supplied on the command line
(the empty string) yet no environment assignment at all happens, because the
source tests `if args.gpu:` (Python truthiness) rather than `is not None`. -/
theorem C5_counterexample :
    argsGpuEmpty.gpu = some ""
    ∧ ((main cfg0 w0 "OSBS" "20190101_000000" argsGpuEmpty).1.all
        (fun e => !(Event.isSetEnv e))) = true := by
  exact ⟨rfl, by decide⟩

/-- C5 witness: with the non-empty GPU id `"0"` the assignment happens first,
before session setup and model load. -/
theorem C5_gpu_env_witness :
    ∃ rest, (main cfg0 w0 "OSBS" "20190101_000000" argsGpu).1 =
        Event.setEnv "CUDA_VISIBLE_DEVICES" "0" :: rest
      ∧ Event.setSession ∈ rest ∧ Event.loadModel argsGpu.model ∈ rest :=
  (C5_gpu_env cfg0 w0 "OSBS" "20190101_000000" argsGpu).2 "0" rfl (by decide)

/-- Scanning the sub-command followed by two non-option tokens collects the
three positionals in order, with no optional arguments. -/
theorem scanArgs_three (ann mdl : String) (h1 : strPre "-" ann = false)
    (h2 : strPre "-" mdl = false) :
    scanArgs ["onthefly", ann, mdl] = Except.ok ([], ["onthefly", ann, mdl]) := by
  have h0 : strPre "-" "onthefly" = false := by decide
  simp [scanArgs, h0, h1, h2, Except.map]

/-- C6: with every flag omitted the parser yields the stated defaults (score
threshold 0.05, IoU threshold 0.5, max detections 100, suppression threshold
0.2, image min side 800, image max side 1333, batch size 1), and parsing fails
with a usage error when the sub-command or a required positional (annotations
path, model path) is absent. -/
theorem C6_parse_defaults (ann mdl : String)
    (h1 : strPre "-" ann = false) (h2 : strPre "-" mdl = false) :
    parse_args ["onthefly", ann, mdl] = Except.ok (defaultArgsFor "onthefly" ann mdl)
    ∧ (defaultArgsFor "onthefly" ann mdl).score_threshold = 1/20
    ∧ (defaultArgsFor "onthefly" ann mdl).iou_threshold = 1/2
    ∧ (defaultArgsFor "onthefly" ann mdl).max_detections = 100
    ∧ (defaultArgsFor "onthefly" ann mdl).suppression_threshold = 1/5
    ∧ (defaultArgsFor "onthefly" ann mdl).image_min_side = 800
    ∧ (defaultArgsFor "onthefly" ann mdl).image_max_side = 1333
    ∧ (defaultArgsFor "onthefly" ann mdl).batch_size = 1
    ∧ (defaultArgsFor "onthefly" ann mdl).gpu = none
    ∧ (defaultArgsFor "onthefly" ann mdl).save_path = none
    ∧ parse_args [] = Except.error ParseError.missingRequired
    ∧ parse_args ["m.h5"] = Except.error ParseError.invalidChoice
    ∧ parse_args ["onthefly"] = Except.error ParseError.missingRequired
    ∧ parse_args ["onthefly", "a.csv"] = Except.error ParseError.missingRequired := by
  refine ⟨?_, rfl, rfl, rfl, rfl, rfl, rfl, rfl, rfl, rfl, rfl, rfl, rfl, rfl⟩
  rw [parse_args, scanArgs_three ann mdl h1 h2]
  rfl

/-- C6 witness: the defaults at a concrete minimal invocation. -/
theorem C6_parse_defaults_witness :
    parse_args ["onthefly", "a.csv", "m.h5"] =
      Except.ok (defaultArgsFor "onthefly" "a.csv" "m.h5") :=
  (C6_parse_defaults "a.csv" "m.h5" (by decide) (by decide)).1

/-- C7: the claim that a run without `--save-path` completes normally fails on
the code: line 137 of `src/eval.py` computes `args.save_path + dirname`
unconditionally, which raises `TypeError` for `None`, so the evaluator is never
invoked, no metric is logged and the exit status is non-zero.  The explicit
`is not None` guard at line 119 and the parser's description of `--save-path`
as optional show the claim matches the intent and line 137 is the slip. -/
theorem C7_save_path_none (cfg : DFConfig) (w : World) (site dirname : String)
    (args : Args) (hsp : args.save_path = none) :
    (main cfg w site dirname args).2 = some PyError.typeError
    ∧ (∀ sp, Event.evaluateCall sp ∉ (main cfg w site dirname args).1)
    ∧ (∀ n v, Event.logMetric n v ∉ (main cfg w site dirname args).1) := by
  have h := main_none_shape cfg w site dirname args hsp
  refine ⟨by rw [h], ?_, ?_⟩
  · intro sp
    rw [h]
    simp [mem_gpuEvs_iff]
  · intro n v
    rw [h]
    simp [mem_gpuEvs_iff]

/-- C7 witness: the failing concrete run with the save path omitted. -/
theorem C7_save_path_none_witness :
    (main cfg0 w0 "OSBS" "20190101_000000" argsNoSave).2 = some PyError.typeError :=
  (C7_save_path_none cfg0 w0 "OSBS" "20190101_000000" argsNoSave rfl).1

/-- C8 (amended): when `--save-path` is given, the output directory is the
string concatenation `save_path ++ dirname` of the save path and the
timestamp — a subdirectory of the save path only when the save path ends with
a path separator — and when that path does not already exist it is created
before the evaluator is invoked; the evaluator receives exactly that path. -/
theorem C8_save_dir (cfg : DFConfig) (w : World) (site dirname p : String) (args : Args)
    (hsp : args.save_path = some p) :
    (w.path_exists (p ++ dirname) = false →
      ∃ pre post, (main cfg w site dirname args).1 =
          pre ++ Event.makedirs (p ++ dirname) :: post
        ∧ Event.evaluateCall (p ++ dirname) ∈ post)
    ∧ (w.path_exists (p ++ dirname) = true →
        ∀ q, Event.makedirs q ∉ (main cfg w site dirname args).1) := by
  by_cases hz : presentClasses w.evaluate_result = 0
  · have h := main_zero_shape cfg w site dirname p args hsp hz
    constructor
    · intro hex
      refine ⟨gpuEvs args.gpu ++
          [Event.setSession, Event.logParameter "Start Time" (PValue.str dirname)],
        [Event.printLoading, Event.loadModel args.model, Event.printSummary,
         Event.evaluateCall (p ++ dirname)] ++
          classEvs w.label_to_name w.evaluate_result, ?_, by simp⟩
      rw [h]
      simp [mkDirEvs, hex, List.append_assoc]
    · intro hex q
      rw [h]
      simp [mem_gpuEvs_iff, mem_mkDirEvs_iff, hex, classEvs]
  · have h := main_ok_shape cfg w site dirname p args hsp hz
    constructor
    · intro hex
      refine ⟨gpuEvs args.gpu ++
          [Event.setSession, Event.logParameter "Start Time" (PValue.str dirname)],
        [Event.printLoading, Event.loadModel args.model, Event.printSummary,
         Event.evaluateCall (p ++ dirname)] ++
          classEvs w.label_to_name w.evaluate_result ++
          [Event.printMAP (mapValue w.evaluate_result),
           Event.logMetric "mAP" (mapValue w.evaluate_result)] ++
          (if site = "OSBS" then
             [Event.jaccardInvoked, Event.printMeanIoU w.jaccard,
              Event.logMetric "Mean IoU" w.jaccard]
           else []) ++
          [Event.neonRecallInvoked site, Event.logMetric "Recall" w.neon_recall,
           Event.printRecall w.neon_recall,
           Event.logParameter "Number of Trees"
             (PValue.natList (ntreesOf cfg w args))], ?_, by simp⟩
      rw [h]
      simp [mkDirEvs, hex, List.append_assoc]
    · intro hex q
      rw [h]
      by_cases hs : site = "OSBS" <;>
        simp [hs, mem_gpuEvs_iff, mem_mkDirEvs_iff, hex, classEvs]

/-- C8 counterexample: with save path `out` and timestamp `20190101_000000`
the single created directory (also passed to the evaluator) is
`out20190101_000000`, which is not under the directory `out`: the timestamp is
appended by string concatenation, not as a path component, so the created
directory is not a subdirectory of the given save path. -/
theorem C8_counterexample :
    createdDirs (main cfg0 w0 "OSBS" "20190101_000000" args0).1 =
      ["out20190101_000000"]
    ∧ strPre "out/" "out20190101_000000" = false
    ∧ evalCalls (main cfg0 w0 "OSBS" "20190101_000000" args0).1 =
      ["out20190101_000000"] := by
  exact ⟨by decide, by decide, by decide⟩

/-- C8 witness: the amended theorem at a concrete run. -/
theorem C8_save_dir_witness :
    ∃ pre post, (main cfg0 w0 "OSBS" "20190101_000000" args0).1 =
        pre ++ Event.makedirs ("out" ++ "20190101_000000") :: post
      ∧ Event.evaluateCall ("out" ++ "20190101_000000") ∈ post :=
  (C8_save_dir cfg0 w0 "OSBS" "20190101_000000" "out" args0 rfl).1 (by decide)

/-- C9: the generator is constructed with grouping disabled
(`group_method = "none"`) and shuffling disabled (`shuffle_groups = False`),
and its batch enumeration does not depend on the run's random seed: two
evaluation runs enumerate the same batches in the same order. -/
theorem C9_deterministic (st : String → DFConfig → Bool → List Ann)
    (dfc : DFConfig) (args : Args) (config : DFConfig) :
    (create_generator st dfc args config).group_method = "none"
    ∧ (create_generator st dfc args config).shuffle_groups = false
    ∧ ∀ seed1 seed2,
        enumerateBatches (create_generator st dfc args config) seed1 =
          enumerateBatches (create_generator st dfc args config) seed2 := by
  refine ⟨rfl, rfl, ?_⟩
  intro s1 s2
  rfl

/-- C10: `create_generator` never reads its `config` parameter — its body uses
only the module-level globals — so for any two values of that argument it
constructs the same generator. -/
theorem C10_config_unused (st : String → DFConfig → Bool → List Ann)
    (dfc : DFConfig) (args : Args) (c1 c2 : DFConfig) :
    create_generator st dfc args c1 = create_generator st dfc args c2 := rfl

end DeepForestEval
